import Mathlib

/-!
Shallow embedding of the terminal rendering subsystem of vvk-charts-mcp
(`src/vvk_charts_mcp/terminal/renderer.py` and
`src/vvk_charts_mcp/terminal/themes.py`), together with theorems settling
the specification claims about it.

Python machine floats are modelled as exact fractions (`PyNum`), Python
ints as `Int`, Python strings as `String` (character-counted, as
Python's `len`/slicing are), and the dynamic values reaching the
numeric-coercion helpers as the inductive `PyVal`.  The external
plotting backend (`plotext`) and the process environment are passed in
explicitly as parameters, since the Python code consults them at call
time.
-/

/-- Kind of Python exception that `float(...)` can raise and that the
coercion helpers catch (`except (TypeError, ValueError)`). -/
inductive PyErr where
  | typeError
  | valueError
deriving DecidableEq

/-- Python machine floats, modelled as exact fractions: an integer
numerator over a positive integer denominator, kept unnormalized so that
every arithmetic operation is plain integer arithmetic (floating-point
rounding error is out of scope of the claims). -/
structure PyNum where
  num : Int
  den : Int
deriving DecidableEq

instance (n : Nat) : OfNat PyNum n := ⟨⟨(n : Int), 1⟩⟩

instance : Neg PyNum := ⟨fun a => ⟨-a.num, a.den⟩⟩

instance : Add PyNum := ⟨fun a b => ⟨a.num * b.den + b.num * a.den, a.den * b.den⟩⟩

instance : Sub PyNum := ⟨fun a b => ⟨a.num * b.den - b.num * a.den, a.den * b.den⟩⟩

instance : Mul PyNum := ⟨fun a b => ⟨a.num * b.num, a.den * b.den⟩⟩

instance : Div PyNum :=
  ⟨fun a b =>
    if b.num < 0 then ⟨-(a.num * b.den), a.den * -b.num⟩
    else ⟨a.num * b.den, a.den * b.num⟩⟩

instance : LE PyNum := ⟨fun a b => a.num * b.den ≤ b.num * a.den⟩

instance : LT PyNum := ⟨fun a b => a.num * b.den < b.num * a.den⟩

instance (a b : PyNum) : Decidable (a ≤ b) :=
  inferInstanceAs (Decidable (a.num * b.den ≤ b.num * a.den))

instance (a b : PyNum) : Decidable (a < b) :=
  inferInstanceAs (Decidable (a.num * b.den < b.num * a.den))

/-- Python's two-argument `min` keeps the first argument on ties. -/
instance : Min PyNum := ⟨fun a b => if b < a then b else a⟩

/-- Python's two-argument `max` keeps the first argument on ties. -/
instance : Max PyNum := ⟨fun a b => if a < b then b else a⟩

/-- Python's `abs` on a float. -/
def pyAbs (a : PyNum) : PyNum := if a.num < 0 then ⟨-a.num, a.den⟩ else a

/-- Floor of the fraction (denominator positive). -/
def PyNum.floor (a : PyNum) : Int := Int.fdiv a.num a.den

/-- Ceiling of the fraction (denominator positive). -/
def PyNum.ceil (a : PyNum) : Int := -Int.fdiv (-a.num) a.den

/-- Display form of a modelled float (the claims never inspect it). -/
def pyNumRepr (a : PyNum) : String := toString a.num ++ "/" ++ toString a.den

/-- Python-like dynamic values appearing in chart request data
(JSON-shaped: `None`, booleans, ints, floats, strings, lists). -/
inductive PyVal where
  | none
  | bool (b : Bool)
  | int (n : Int)
  | float (q : PyNum)
  | str (s : String)
  | list (l : List PyVal)

/-- Value of a non-empty run of decimal digit characters. -/
def digitsToNat (l : List Char) : Nat :=
  l.foldl (fun a c => 10 * a + (c.toNat - 48)) 0

/-- Strip leading and trailing spaces (Python's `float` accepts
surrounding whitespace). -/
def trimSpaces (l : List Char) : List Char :=
  ((l.dropWhile (· = ' ')).reverse.dropWhile (· = ' ')).reverse

/-- Parse the decimal-literal fragment of Python's `float` grammar:
optional sign, digits, optional fractional part ("3", "3.5", "3.", ".5").
Returns `none` exactly where Python's `float` raises `ValueError`. -/
def parseRat? (s : String) : Option PyNum :=
  let cs := trimSpaces s.toList
  let neg := cs.head? == some '-'
  let cs := if cs.head? == some '-' || cs.head? == some '+' then cs.tail else cs
  let ip := cs.takeWhile Char.isDigit
  let rest := cs.dropWhile Char.isDigit
  let signed : PyNum → PyNum := fun q => if neg then -q else q
  match rest with
  | [] =>
      if ip.isEmpty then Option.none
      else some (signed ⟨(digitsToNat ip : Int), 1⟩)
  | '.' :: fp =>
      if fp.all Char.isDigit ∧ ¬(ip.isEmpty ∧ fp.isEmpty) then
        some (signed (⟨(digitsToNat ip : Int), 1⟩ +
          ⟨(digitsToNat fp : Int), ((10 ^ fp.length : Nat) : Int)⟩))
      else Option.none
  | _ => Option.none

/-- Python's `float(value)` on a `PyVal`: numbers and numeric strings
convert; `None` and lists raise `TypeError`; non-numeric strings raise
`ValueError`. -/
def pyFloat : PyVal → Except PyErr PyNum
  | .none => .error .typeError
  | .bool b => .ok (if b then 1 else 0)
  | .int n => .ok ⟨n, 1⟩
  | .float q => .ok q
  | .str s =>
      match parseRat? s with
      | some q => .ok q
      | Option.none => .error .valueError
  | .list _ => .error .typeError

mutual

/-- Python's `str(value)` on a `PyVal` (float and nested-list rendering is
abstracted to a canonical representation; claims never inspect those). -/
def pyStr : PyVal → String
  | .none => "None"
  | .bool true => "True"
  | .bool false => "False"
  | .int n => toString n
  | .float q => pyNumRepr q
  | .str s => s
  | .list l => "[" ++ String.intercalate ", " (pyStrList l) ++ "]"

/-- Stringify each element of a list of `PyVal`s. -/
def pyStrList : List PyVal → List String
  | [] => []
  | v :: vs => pyStr v :: pyStrList vs

end

/-- The helper `_safe_float` of `renderer.py`: `float(value)`, with any
`TypeError`/`ValueError` yielding `0.0`. -/
def safe_float (value : PyVal) : PyNum :=
  match pyFloat value with
  | .ok q => q
  | .error _ => 0

/-- The 1-based positional index `[1, 2, ..., length]` (as floats). -/
def positionalIndex (length : Nat) : List PyNum :=
  (List.range length).map (fun i => ⟨(i : Int) + 1, 1⟩)

/-- Coerce every element, stopping at the first failure, as a Python list
comprehension `[float(v) for v in values]` inside `try` does. -/
def coerceAll : List PyVal → Except PyErr (List PyNum)
  | [] => .ok []
  | v :: vs =>
      match pyFloat v with
      | .error e => .error e
      | .ok q =>
          match coerceAll vs with
          | .error e => .error e
          | .ok qs => .ok (q :: qs)

/-- The helper `_x_for_plotext` of `renderer.py`: empty input synthesizes
a 1-based index; otherwise all values are coerced, any failure falling
back to the same index. -/
def x_for_plotext (values : List PyVal) (length : Nat) : List PyNum :=
  if values.isEmpty then positionalIndex length
  else
    match coerceAll values with
    | .ok l => l
    | .error _ => positionalIndex length

/-- Truncation toward zero, Python's `int(...)` on a float. -/
def pyInt (q : PyNum) : Int :=
  if 0 ≤ q then q.floor else q.ceil

/-- Python's `math.isclose(a, b)` with its default tolerances
(`rel_tol = 1e-9`, `abs_tol = 0.0`). -/
def pyIsClose (a b : PyNum) : Bool :=
  pyAbs (a - b) ≤ (⟨1, 1000000000⟩ : PyNum) * max (pyAbs a) (pyAbs b)

/-- The 8-level block-glyph ramp used by `_sparkline`, low to high. -/
def ticks : List Char := ['▁', '▂', '▃', '▄', '▅', '▆', '▇', '█']

/-- Glyph chosen by `_sparkline` for value `v` over range `[lo, hi]`:
`ticks[int((v - lo) / (hi - lo) * (len(ticks) - 1))]`. -/
def sparkGlyph (lo hi v : PyNum) : Char :=
  ticks.getD (pyInt ((v - lo) / (hi - lo) * 7)).toNat '▁'

/-- The helper `_sparkline` of `renderer.py`, producing the glyph sequence
(the Python function returns these glyphs joined into a string). -/
def sparkline (values : List PyNum) : List Char :=
  match values with
  | [] => []
  | v :: vs =>
      let lo := vs.foldl min v
      let hi := vs.foldl max v
      if pyIsClose lo hi then List.replicate (v :: vs).length '▁'
      else (v :: vs).map (sparkGlyph lo hi)

/-- A custom theme object passed inline (a Python dict; each field may be
absent or hold an arbitrary value). -/
structure ThemeDict where
  name : Option PyVal
  colors : Option PyVal
  mono_symbol : Option PyVal

/-- The `theme` argument of the renderers: `None`, a theme name, or an
inline dict. -/
inductive ThemeInput where
  | none
  | name (s : String)
  | dict (d : ThemeDict)

/-- A resolved CLI theme (`themes.py`): display name, color cycle, and
the monochrome bar-fill glyph. -/
structure CliTheme where
  name : String
  colors : List String
  mono_symbol : String
deriving DecidableEq

/-- The built-in theme `dark_corporate_cli`, also the default. -/
def dark_corporate_cli : CliTheme :=
  { name := "dark_corporate_cli",
    colors := ["blue", "green", "yellow", "magenta", "cyan", "white"],
    mono_symbol := "#" }

/-- The built-in theme `pastel_startup_cli`. -/
def pastel_startup_cli : CliTheme :=
  { name := "pastel_startup_cli",
    colors := ["cyan", "magenta", "yellow", "green", "blue", "white"],
    mono_symbol := "*" }

/-- The `CLI_THEMES` table of `themes.py`. -/
def CLI_THEMES : List (String × CliTheme) :=
  [("dark_corporate_cli", dark_corporate_cli),
   ("pastel_startup_cli", pastel_startup_cli)]

/-- The function `resolve_cli_theme` of `themes.py` (the glyph truncation
`str(theme.get("mono_symbol", "#"))[:1] or "#"` is written as a match on
the string's first character, which is the same function). -/
def resolve_cli_theme : ThemeInput → CliTheme
  | .none => dark_corporate_cli
  | .name s => (CLI_THEMES.lookup s).getD dark_corporate_cli
  | .dict d =>
      let colors : List String :=
        match d.colors with
        | some (.list l) => if l.isEmpty then dark_corporate_cli.colors else pyStrList l
        | _ => dark_corporate_cli.colors
      { name := pyStr (d.name.getD (.str "custom_cli_theme")),
        colors := colors,
        mono_symbol :=
          match (pyStr (d.mono_symbol.getD (.str "#"))).toList with
          | [] => "#"
          | c :: _ => String.mk [c] }

/-- Process environment as sampled by `should_use_color`
(`os.getenv("NO_COLOR")` and `os.getenv("TERM", "")`). -/
structure Env where
  no_color : Option String
  term : Option String

/-- ASCII lowercasing, character by character (the `TERM` comparison
only ever involves ASCII). -/
def lowerAscii (s : String) : String :=
  String.mk (s.toList.map Char.toLower)

/-- Python truthiness of `os.getenv(...)`: set and non-empty. -/
def envTruthy : Option String → Bool
  | some s => !s.isEmpty
  | Option.none => false

/-- The function `should_use_color` of `renderer.py`. -/
def should_use_color (env : Env) (use_color : Bool) (force_mono : Bool) : Bool :=
  if force_mono then false
  else if !use_color then false
  else if envTruthy env.no_color then false
  else if lowerAscii (env.term.getD "") = "dumb" then false
  else true

/-- Remove the non-overlapping matches of the `ANSI_RE` escape pattern:
ESC, then `[`, then any chars in 0x30–0x3F, then any chars in 0x20–0x2F,
then one final char in 0x40–0x7E.  The three character classes are
pairwise disjoint and contain neither ESC nor `[`, so a left-to-right
greedy scan (restarting at the failing character, which is the only place
a new match could begin) computes exactly what `re.sub` removes.  `phase`
0 is ordinary text, 3 is just after an ESC, 1 is inside a sequence with
parameter bytes still allowed, 2 is inside one after an intermediate
byte; `buf` holds the consumed candidate (reversed) to re-emit if the
candidate fails to complete. -/
def stripGo (phase : Nat) (buf : List Char) (l : List Char) : List Char :=
  match l with
  | [] => buf.reverse
  | c :: rest =>
      if phase = 0 then
        if c = '\x1B' then stripGo 3 ['\x1B'] rest
        else c :: stripGo 0 [] rest
      else if phase = 3 then
        if c = '[' then stripGo 1 ('[' :: buf) rest
        else buf.reverse ++
          (if c = '\x1B' then stripGo 3 ['\x1B'] rest else c :: stripGo 0 [] rest)
      else if phase = 1 then
        if '0' ≤ c ∧ c ≤ '?' then stripGo 1 (c :: buf) rest
        else if ' ' ≤ c ∧ c ≤ '/' then stripGo 2 (c :: buf) rest
        else if '@' ≤ c ∧ c ≤ '~' then stripGo 0 [] rest
        else buf.reverse ++
          (if c = '\x1B' then stripGo 3 ['\x1B'] rest else c :: stripGo 0 [] rest)
      else
        if ' ' ≤ c ∧ c ≤ '/' then stripGo 2 (c :: buf) rest
        else if '@' ≤ c ∧ c ≤ '~' then stripGo 0 [] rest
        else buf.reverse ++
          (if c = '\x1B' then stripGo 3 ['\x1B'] rest else c :: stripGo 0 [] rest)

/-- The function `strip_ansi` of `renderer.py`:
`ANSI_RE.sub("", text)`. -/
def strip_ansi (text : String) : String :=
  String.mk (stripGo 0 [] text.toList)

/-- Round half to even, as Python's float formatting does. -/
def roundHalfEven (q : PyNum) : Int :=
  let f := q.floor
  if q - ⟨f, 1⟩ < (⟨1, 2⟩ : PyNum) then f
  else if (⟨1, 2⟩ : PyNum) < q - ⟨f, 1⟩ then f + 1
  else if f % 2 = 0 then f else f + 1

/-- Python's `f"{value:.2f}"` fixed-point formatting with two decimals. -/
def fmt2 (q : PyNum) : String :=
  let n := roundHalfEven (q * 100)
  let m := n.natAbs
  (if n < 0 then "-" else "") ++ toString (m / 100) ++ "." ++
    (if m % 100 < 10 then "0" else "") ++ toString (m % 100)

/-- Python's left-aligned padding `f"{s:<n}"` (pad with spaces, never
truncate). -/
def padRight (n : Nat) (s : String) : String :=
  s ++ String.mk (List.replicate (n - s.length) ' ')

/-- One data series of a chart request: a dict with optional `name` and
the `x`/`y` sequences (absent sequences default to `[]`). -/
structure Series where
  name : Option PyVal
  x : List PyVal
  y : List PyVal

/-- Effective name of series number `idx` (1-based):
`str(series.get("name", f"Series {idx}"))`. -/
def seriesName (idx : Nat) (s : Series) : String :=
  pyStr (s.name.getD (.str ("Series " ++ toString idx)))

/-- One sparkline row of the monochrome renderer for line/scatter/area
charts. -/
def monoLineRow (width : Int) (idx : Nat) (s : Series) : String :=
  let y := (s.y.map safe_float)
  let spark := sparkline y
  let spark :=
    if (spark.length : Int) > width - 20
    then spark.take (max 8 (width - 23)).toNat ++ ['.', '.', '.']
    else spark
  match y with
  | [] => padRight 18 (seriesName idx s) ++ " (no data)"
  | v :: vs =>
      padRight 18 (seriesName idx s) ++ " " ++ String.mk spark ++
        "  min=" ++ fmt2 (vs.foldl min v) ++ " max=" ++ fmt2 (vs.foldl max v)

/-- Flattened `(label, value)` pairs of the bar branch: per series, `x`
zipped with the coerced `y` (truncating to the shorter), labels
stringified. -/
def barRows (data : List Series) : List (String × PyNum) :=
  (data.map (fun s => (s.x.zip (s.y.map safe_float)).map (fun p => (pyStr p.1, p.2)))).flatten

/-- Global maximum of the bar rows' values, starting from `0.0`
(`max_val = max(max_val, y)` over the flattened pairs). -/
def barMaxVal (rows : List (String × PyNum)) : PyNum :=
  rows.foldl (fun a p => max a p.2) 0

/-- The bar width of the monochrome bar branch: `max(10, width - 28)`. -/
def bar_width (width : Int) : Int := max 10 (width - 28)

/-- Python's `size` for one bar:
`int((value / max_val) * bar_width) if max_val > 0 else 0`. -/
def barSize (bw : Int) (maxVal value : PyNum) : Int :=
  if 0 < maxVal then pyInt (value / maxVal * ⟨bw, 1⟩) else 0

/-- Number of repetitions of the glyph in one bar: `max(1, size)`. -/
def barGlyphCount (bw : Int) (maxVal value : PyNum) : Nat :=
  (max 1 (barSize bw maxVal value)).toNat

/-- One rendered bar row:
`f"{label[:14]:<14} | {bar:<{bar_width}} {value:.2f}"`. -/
def monoBarRow (sym : String) (bw : Int) (maxVal : PyNum) (label : String) (value : PyNum) : String :=
  let bar := String.join (List.replicate (barGlyphCount bw maxVal value) sym)
  padRight 14 (label.take 14) ++ " | " ++ padRight bw.toNat bar ++ " " ++ fmt2 value

/-- Python truthiness of an optional string argument. -/
def strTruthy : Option String → Bool
  | some s => !s.isEmpty
  | Option.none => false

/-- The lines built by `_render_mono_chart` (the Python function joins
them with newlines). -/
def monoChartLines (chart_type : String) (data : List Series)
    (title x_label y_label : Option String) (width height : Int)
    (mono_symbol : String) : List String :=
  let titleLines :=
    match title with
    | some t =>
        if t.isEmpty then []
        else [t, String.mk (List.replicate (min (t.length : Int) width).toNat '-')]
    | Option.none => []
  let body :=
    if chart_type = "line" ∨ chart_type = "scatter" ∨ chart_type = "area" then
      data.enum.map (fun p => monoLineRow width (p.1 + 1) p.2)
    else if chart_type = "bar" then
      let rows := barRows data
      let maxVal := barMaxVal rows
      (rows.take (max 5 (height * 2)).toNat).map
        (fun p => monoBarRow mono_symbol (bar_width width) maxVal p.1 p.2)
    else ["Unsupported terminal chart type: " ++ chart_type]
  let labelLines :=
    (if strTruthy x_label ∨ strTruthy y_label then [""] else [])
    ++ (match x_label with
        | some t => if t.isEmpty then [] else ["X: " ++ t]
        | Option.none => [])
    ++ (match y_label with
        | some t => if t.isEmpty then [] else ["Y: " ++ t]
        | Option.none => [])
  titleLines ++ body ++ labelLines

/-- The function `_render_mono_chart` of `renderer.py`. -/
def render_mono_chart (chart_type : String) (data : List Series)
    (title x_label y_label : Option String) (width height : Int)
    (mono_symbol : String) : String :=
  String.intercalate "\n" (monoChartLines chart_type data title x_label y_label width height mono_symbol)

/-- Outcome of one invocation of `_render_plotext_chart`: the captured
text, or the message of the exception it raised.  The external plotting
backend is out of scope, so the outcome is passed in as a parameter. -/
inductive AdapterOutcome where
  | ok (text : String)
  | err (msg : String)
deriving DecidableEq

/-- The result dict of `render_terminal_chart`; the optional
`fallback_reason` key is modelled as an `Option`. -/
structure RenderResult where
  success : Bool
  render_mode : String
  engine : String
  theme : String
  chart : String
  fallback_reason : Option String
deriving DecidableEq

/-- The four supported terminal chart kinds. -/
def VALID_KINDS : List String := ["line", "bar", "scatter", "area"]

/-- The three recognized text modes. -/
def VALID_TEXT_MODES : List String := ["auto", "plotext_stripped", "fallback"]

/-- The function `render_terminal_chart` of `renderer.py`.  `adapter` is
the behavior `_render_plotext_chart` would have on this request and
`env` the process environment; a raised `ValueError` is the `Except`
error case. -/
def render_terminal_chart (adapter : AdapterOutcome) (env : Env)
    (chart_type : String) (data : List Series)
    (title x_label y_label : Option String)
    (width height : Int) (theme : ThemeInput)
    (use_color force_mono : Bool) (text_mode : String) :
    Except String RenderResult :=
  if ¬ chart_type ∈ VALID_KINDS then
    .error "terminal chart type must be one of: line, bar, scatter, area"
  else if data.isEmpty then
    .error "'data' must be a non-empty array"
  else if ¬ text_mode ∈ VALID_TEXT_MODES then
    .error "'text_mode' must be one of: auto, plotext_stripped, fallback"
  else
    let resolved_theme := resolve_cli_theme theme
    let ansi_enabled := should_use_color env use_color force_mono
    let monoRes : Option String → RenderResult := fun plotext_error =>
      { success := true, render_mode := "mono", engine := "fallback",
        theme := resolved_theme.name,
        chart := render_mono_chart chart_type data title x_label y_label
                   width height resolved_theme.mono_symbol,
        fallback_reason :=
          match plotext_error with
          | some msg => if msg.isEmpty then Option.none else some msg
          | Option.none => Option.none }
    if text_mode ≠ "fallback" then
      match adapter with
      | .ok text =>
          if text_mode = "plotext_stripped" then
            .ok { success := true, render_mode := "mono",
                  engine := "plotext-stripped", theme := resolved_theme.name,
                  chart := strip_ansi text, fallback_reason := Option.none }
          else if ansi_enabled then
            .ok { success := true, render_mode := "ansi", engine := "plotext",
                  theme := resolved_theme.name, chart := text,
                  fallback_reason := Option.none }
          else
            .ok { success := true, render_mode := "mono",
                  engine := "plotext-stripped", theme := resolved_theme.name,
                  chart := strip_ansi text, fallback_reason := Option.none }
      | .err msg => .ok (monoRes (some msg))
    else
      .ok (monoRes Option.none)

/-- One dashboard panel spec: a dict whose fields may all be absent
(`panel.get(...)` with defaults). -/
structure Panel where
  type : Option PyVal
  data : Option (List Series)
  title : Option String
  x_label : Option String
  y_label : Option String

/-- The result dict of `render_terminal_dashboard`. -/
structure DashboardResult where
  success : Bool
  render_mode : String
  engine : String
  theme : String
  dashboard : String
  fallback_reason : Option String
deriving DecidableEq

/-- Per-panel chart kind: `str(panel.get("type", "line"))`. -/
def panelChartType (p : Panel) : String :=
  pyStr (p.type.getD (.str "line"))

/-- Per-panel title: `panel.get("title") or f"Panel {idx}"` (`idx`
1-based; an empty or absent title is falsy). -/
def panelTitle (p : Panel) (idx : Nat) : String :=
  match p.title with
  | some t => if t.isEmpty then "Panel " ++ toString idx else t
  | Option.none => "Panel " ++ toString idx

/-- The single call `render_terminal_chart(...)` the dashboard loop makes
for panel `p` at 0-based position `idx`. -/
def renderPanel (adapter : Nat → AdapterOutcome) (env : Env)
    (width height : Int) (npanels : Nat) (theme : ThemeInput)
    (use_color force_mono : Bool) (text_mode : String)
    (idx : Nat) (p : Panel) : Except String RenderResult :=
  render_terminal_chart (adapter idx) env (panelChartType p) (p.data.getD [])
    (some (panelTitle p (idx + 1))) p.x_label p.y_label
    (max 40 width) (max 10 (Int.fdiv height (max 1 (npanels : Int))))
    theme use_color force_mono text_mode

/-- The dashboard loop: render every panel in order, propagating the
first raised validation error. -/
def renderPanels (adapter : Nat → AdapterOutcome) (env : Env)
    (width height : Int) (npanels : Nat) (theme : ThemeInput)
    (use_color force_mono : Bool) (text_mode : String) :
    Nat → List Panel → Except String (List RenderResult)
  | _, [] => .ok []
  | idx, p :: ps =>
      match renderPanel adapter env width height npanels theme use_color force_mono text_mode idx p with
      | .error e => .error e
      | .ok r =>
          match renderPanels adapter env width height npanels theme use_color force_mono text_mode (idx + 1) ps with
          | .error e => .error e
          | .ok rs => .ok (r :: rs)

/-- Rank of an engine string as used by the dashboard aggregation
(`fallback` worst). -/
def engineRank (e : String) : Nat :=
  if e = "fallback" then 2 else if e = "plotext-stripped" then 1 else 0

/-- Engine string reported for an aggregate rank. -/
def engineOfRank (r : Nat) : String :=
  if r = 2 then "fallback" else if r = 1 then "plotext-stripped" else "plotext"

/-- The function `render_terminal_dashboard` of `renderer.py`; `adapter`
gives the plotext outcome for each 0-based panel position. -/
def render_terminal_dashboard (adapter : Nat → AdapterOutcome) (env : Env)
    (panels : List Panel) (title : Option String) (width height : Int)
    (theme : ThemeInput) (use_color force_mono : Bool) (text_mode : String) :
    Except String DashboardResult :=
  if panels.isEmpty then .error "'panels' must be a non-empty array"
  else
    match renderPanels adapter env width height panels.length theme use_color force_mono text_mode 0 panels with
    | .error e => .error e
    | .ok rs =>
        let mode :=
          if rs.any (fun r => r.engine = "fallback" ∨ r.engine = "plotext-stripped")
          then "mono" else "ansi"
        let rank := rs.foldl (fun a r => max a (engineRank r.engine)) 0
        let reasons := rs.filterMap (fun r => r.fallback_reason)
        let blocks :=
          (match title with
           | some t =>
               if t.isEmpty then []
               else [t, String.mk (List.replicate (min (max (t.length : Int) 12) width).toNat '=')]
           | Option.none => [])
          ++ [String.intercalate "\n\n" (rs.map (fun r => r.chart))]
        .ok { success := true, render_mode := mode, engine := engineOfRank rank,
              theme := (resolve_cli_theme theme).name,
              dashboard := String.intercalate "\n" blocks,
              fallback_reason :=
                if reasons.isEmpty then Option.none
                else some (String.intercalate "; " reasons) }

/-- Generic test for the error case of an `Except`. -/
def isError {ε α : Type} : Except ε α → Bool
  | .error _ => true
  | .ok _ => false

/-- Name lookup in the two-entry `CLI_THEMES` table resolves to one of
the two built-in themes (the default for unknown names). -/
theorem lookup_theme_cases (s : String) :
    (CLI_THEMES.lookup s).getD dark_corporate_cli = dark_corporate_cli ∨
    (CLI_THEMES.lookup s).getD dark_corporate_cli = pastel_startup_cli := by
  by_cases h1 : s = "dark_corporate_cli"
  · subst h1; left; rfl
  · by_cases h2 : s = "pastel_startup_cli"
    · subst h2; right; rfl
    · left
      have hb1 : (s == "dark_corporate_cli") = false := beq_eq_false_iff_ne.mpr h1
      have hb2 : (s == "pastel_startup_cli") = false := beq_eq_false_iff_ne.mpr h2
      have h : CLI_THEMES.lookup s = Option.none := by
        simp [CLI_THEMES, List.lookup, hb1, hb2]
      rw [h]; rfl

/-- A non-empty list of values stringifies to a non-empty list. -/
theorem pyStrList_ne_nil (v : PyVal) (l : List PyVal) :
    pyStrList (v :: l) ≠ [] := by
  simp [pyStrList]

/-- C7: for every input that is `None`, a string, or a dict, theme
resolution is total and returns a non-empty color list and an
exactly-one-character mono glyph; `None` and unknown names resolve to the
built-in default theme, known names to the matching theme, and inline
dicts to a validated custom theme (colors kept only when a non-empty
list, else the default colors; glyph truncated to its first character or
`"#"` when empty or absent; name taken verbatim or
`"custom_cli_theme"`). -/
theorem C7_resolve_theme_total :
    (∀ t : ThemeInput,
        (resolve_cli_theme t).colors ≠ [] ∧ (resolve_cli_theme t).mono_symbol.length = 1)
    ∧ resolve_cli_theme .none = dark_corporate_cli
    ∧ (∀ s : String, resolve_cli_theme (.name s) = (CLI_THEMES.lookup s).getD dark_corporate_cli)
    ∧ resolve_cli_theme (.name "unknown_name") = dark_corporate_cli
    ∧ resolve_cli_theme (.name "dark_corporate_cli") = dark_corporate_cli
    ∧ resolve_cli_theme (.name "pastel_startup_cli") = pastel_startup_cli
    ∧ (∀ d : ThemeDict,
        (resolve_cli_theme (.dict d)).name = pyStr (d.name.getD (.str "custom_cli_theme"))
        ∧ (resolve_cli_theme (.dict d)).colors =
            (match d.colors with
             | some (.list l) => if l.isEmpty then dark_corporate_cli.colors else pyStrList l
             | _ => dark_corporate_cli.colors)
        ∧ (resolve_cli_theme (.dict d)).mono_symbol =
            (match (pyStr (d.mono_symbol.getD (.str "#"))).toList with
             | [] => "#"
             | c :: _ => String.mk [c])) := by
  refine ⟨?_, rfl, fun s => rfl, by decide, by decide, by decide, fun d => ⟨rfl, rfl, rfl⟩⟩
  intro t
  match t with
  | .none => exact ⟨by decide, by decide⟩
  | .name s =>
      have h := lookup_theme_cases s
      have hr : resolve_cli_theme (.name s) = (CLI_THEMES.lookup s).getD dark_corporate_cli := rfl
      cases h with
      | inl h => rw [hr, h]; exact ⟨by decide, by decide⟩
      | inr h => rw [hr, h]; exact ⟨by decide, by decide⟩
  | .dict d =>
      constructor
      · show (match d.colors with
          | some (.list l) => if l.isEmpty then dark_corporate_cli.colors else pyStrList l
          | _ => dark_corporate_cli.colors) ≠ []
        match d.colors with
        | some (.list []) => simp [dark_corporate_cli]
        | some (.list (v :: l)) => simpa using pyStrList_ne_nil v l
        | some .none | some (.bool _) | some (.int _) | some (.float _) | some (.str _) =>
            simp [dark_corporate_cli]
        | Option.none => simp [dark_corporate_cli]
      · show (match (pyStr (d.mono_symbol.getD (.str "#"))).toList with
          | [] => "#"
          | c :: _ => String.mk [c]).length = 1
        match (pyStr (d.mono_symbol.getD (.str "#"))).toList with
        | [] => rfl
        | c :: _ => rfl

/-- A successful full-list coercion returns exactly the element-wise
`safe_float` image (on success both agree at every element). -/
theorem coerceAll_ok_map {values : List PyVal} {qs : List PyNum}
    (h : coerceAll values = .ok qs) : qs = values.map safe_float := by
  induction values generalizing qs with
  | nil => simp [coerceAll] at h; simp [h]
  | cons v vs ih =>
      simp only [coerceAll] at h
      cases hv : pyFloat v with
      | error e => rw [hv] at h; cases h
      | ok q =>
          rw [hv] at h
          cases hrec : coerceAll vs with
          | error e => rw [hrec] at h; cases h
          | ok qs2 =>
              rw [hrec] at h
              cases h
              have h1 : safe_float v = q := by simp [safe_float, hv]
              rw [List.map_cons, h1, ← ih hrec]

/-- Full-list coercion fails exactly when some element's coercion
fails. -/
theorem coerceAll_error_iff (values : List PyVal) :
    isError (coerceAll values) = true ↔ ∃ v ∈ values, isError (pyFloat v) = true := by
  induction values with
  | nil => simp [coerceAll, isError]
  | cons v vs ih =>
      simp only [coerceAll]
      cases hv : pyFloat v with
      | error e => simp [isError, hv]
      | ok q =>
          cases hrec : coerceAll vs with
          | error e =>
              rw [hrec] at ih
              simp only [isError] at ih
              simp [isError, hv, ← ih]
          | ok qs2 =>
              rw [hrec] at ih
              simp only [isError] at ih
              simp [isError, hv, ← ih]

/-- C8: numeric coercion never raises: `safe_float` returns the float
conversion, or `0.0` on any conversion error; `x_for_plotext` returns
the positional index `[1..length]` when the input is empty or any
element fails to coerce, and otherwise the full list coerced — never a
partially coerced list. -/
theorem C8_coercion_safe :
    (∀ v q, pyFloat v = .ok q → safe_float v = q)
    ∧ (∀ v e, pyFloat v = .error e → safe_float v = 0)
    ∧ (∀ length, x_for_plotext [] length = positionalIndex length)
    ∧ (∀ values length,
        x_for_plotext values length = positionalIndex length ∨
        x_for_plotext values length = values.map safe_float)
    ∧ (∀ values length, isError (coerceAll values) = true →
        x_for_plotext values length = positionalIndex length)
    ∧ (∀ values length qs, coerceAll values = .ok qs → values ≠ [] →
        x_for_plotext values length = values.map safe_float)
    ∧ (∀ values, isError (coerceAll values) = true ↔
        ∃ v ∈ values, isError (pyFloat v) = true) := by
  refine ⟨?_, ?_, fun length => rfl, ?_, ?_, ?_, coerceAll_error_iff⟩
  · intro v q h; simp [safe_float, h]
  · intro v e h; simp [safe_float, h]
  · intro values length
    cases values with
    | nil => left; rfl
    | cons v vs =>
        simp only [x_for_plotext, List.isEmpty_cons, if_neg]
        cases hc : coerceAll (v :: vs) with
        | ok qs => right; simp [coerceAll_ok_map hc]
        | error e => left; rfl
  · intro values length h
    cases values with
    | nil => simp [coerceAll, isError] at h
    | cons v vs =>
        simp only [x_for_plotext, List.isEmpty_cons, if_neg]
        cases hc : coerceAll (v :: vs) with
        | ok qs => rw [hc] at h; simp [isError] at h
        | error e => rfl
  · intro values length qs hok hne
    cases values with
    | nil => exact absurd rfl hne
    | cons v vs =>
        simp only [x_for_plotext, List.isEmpty_cons, if_neg]
        rw [hok]
        exact coerceAll_ok_map hok

/-- C9: for a non-empty list whose minimum and maximum coincide within
Python's `math.isclose` tolerance, `_sparkline` yields the lowest ramp
glyph once per value (in particular on `[5, 5, 5]`); otherwise each value
maps onto the 8-level ramp scaled linearly between the list's own
minimum and maximum. -/
theorem C9_sparkline_levels (v : PyNum) (vs : List PyNum) :
    (pyIsClose (vs.foldl min v) (vs.foldl max v) = true →
        sparkline (v :: vs) = List.replicate (v :: vs).length '▁')
    ∧ (pyIsClose (vs.foldl min v) (vs.foldl max v) = false →
        sparkline (v :: vs) = (v :: vs).map (sparkGlyph (vs.foldl min v) (vs.foldl max v)))
    ∧ sparkline [5, 5, 5] = List.replicate 3 '▁' := by
  refine ⟨?_, ?_, by rfl⟩ <;> intro h <;> simp [sparkline, h]

/-- Number of occurrences of a character in a string. -/
def countChar (c : Char) (s : String) : Nat :=
  s.data.count c

/-- Folding string concatenation accumulates the character data. -/
theorem foldl_append_data (l : List String) (acc : String) :
    (l.foldl (fun r s => r ++ s) acc).data = acc.data ++ (l.map String.data).flatten := by
  induction l generalizing acc with
  | nil => simp
  | cons s ss ih => simp [List.foldl_cons, ih]

/-- Flattening replicated singleton lists is replication. -/
theorem flatten_replicate_singleton (c : Char) (n : Nat) :
    (List.replicate n [c]).flatten = List.replicate n c := by
  induction n with
  | zero => rfl
  | succ n ih => simp [List.replicate_succ, ih]

/-- The repeated one-character bar string `mono_symbol * k` has exactly
the replicated character as data. -/
theorem join_replicate_singleton (c : Char) (n : Nat) :
    (String.join (List.replicate n (String.mk [c]))).data = List.replicate n c := by
  show ((List.replicate n (String.mk [c])).foldl (fun r s => r ++ s) "").data = _
  rw [foldl_append_data]
  simp [flatten_replicate_singleton]

/-- Counting distributes over string concatenation. -/
theorem countChar_append (c : Char) (a b : String) :
    countChar c (a ++ b) = countChar c a + countChar c b := by
  simp [countChar]

/-- Padding with spaces does not change the count of a non-space
character. -/
theorem countChar_padRight (c : Char) (n : Nat) (s : String) (h : c ≠ ' ') :
    countChar c (padRight n s) = countChar c s := by
  unfold padRight
  rw [countChar_append]
  have hb : (' ' == c) = false := beq_eq_false_iff_ne.mpr (fun he => h he.symm)
  have : countChar c (String.mk (List.replicate (n - s.length) ' ')) = 0 := by
    simp [countChar, List.count_replicate, hb]
  omega

/-- In one rendered bar row whose glyph occurs neither in the truncated
label nor in the formatted value and is neither a space nor the `|`
separator, the glyph's occurrence count is exactly the bar's repetition
count. -/
theorem countChar_monoBarRow (sym : Char) (bw : Int) (maxVal value : PyNum) (label : String)
    (h1 : sym ∉ (label.take 14).data) (h2 : sym ∉ (fmt2 value).data)
    (h3 : sym ≠ ' ') (h4 : sym ≠ '|') :
    countChar sym (monoBarRow (String.mk [sym]) bw maxVal label value) =
      barGlyphCount bw maxVal value := by
  simp only [monoBarRow, countChar_append]
  rw [countChar_padRight _ _ _ h3, countChar_padRight _ _ _ h3]
  have hl : countChar sym (label.take 14) = 0 := List.count_eq_zero_of_not_mem h1
  have hsep : countChar sym " | " = 0 := by
    simp [countChar, List.count_eq_zero]
    exact ⟨h3, h4, h3⟩
  have hbar : countChar sym (String.join (List.replicate (barGlyphCount bw maxVal value) (String.mk [sym])))
      = barGlyphCount bw maxVal value := by
    unfold countChar
    rw [join_replicate_singleton, List.count_replicate_self]
  have hsp : countChar sym " " = 0 := by
    simp [countChar, List.count_eq_zero]
    exact h3
  have hf : countChar sym (fmt2 value) = 0 := List.count_eq_zero_of_not_mem h2
  omega

/-- Concrete two-bar series used as a test input: labels "A" and "B"
with values 5 and 9. -/
def barDataAB : List Series :=
  [⟨Option.none, [.str "A", .str "B"], [.int 5, .int 9]⟩]

/-- C2 counterexample: at width 38 (bar width 10) and values 5 and 9, the
rendered "A" row carries 5 glyphs while `round(5 / 9 * 10) = 6`; and when
the global maximum is 0, the bar renders with 1 glyph, not 0. -/
theorem C2_counterexample :
    countChar '#' ((monoChartLines "bar" barDataAB
        Option.none Option.none Option.none 38 28 "#").getD 0 "") = 5
    ∧ bar_width 38 = 10
    ∧ round ((5 : ℚ) / 9 * 10) = 6
    ∧ countChar '#' ((monoChartLines "bar" [⟨Option.none, [.str "A"], [.int 0]⟩]
        Option.none Option.none Option.none 38 28 "#").getD 0 "") = 1 := by
  refine ⟨by rfl, by rfl, ?_, by rfl⟩
  rw [round_eq, show (5 : ℚ) / 9 * 10 + 1 / 2 = 109 / 18 by ring]
  exact Int.floor_eq_iff.mpr (by constructor <;> norm_num)

/-- C2 (amended): in the monochrome bar renderer the rendered lines are
exactly the flattened rows, capped at `max(5, height * 2)`, one bar row
each; and each row's glyph count is `max(1, int(value / max_value *
bar_width))` with `bar_width = max(10, width - 28)` when the global
maximum is positive, and exactly 1 (not 0) when the global maximum is 0
or less. -/
theorem C2_bar_rows (data : List Series) (width height : Int) (sym : Char)
    (hs : sym ≠ ' ' ∧ sym ≠ '|')
    (hlab : ∀ p ∈ barRows data, sym ∉ (p.1.take 14).data)
    (hfmt : ∀ p ∈ barRows data, sym ∉ (fmt2 p.2).data) :
    monoChartLines "bar" data Option.none Option.none Option.none width height (String.mk [sym]) =
      ((barRows data).take (max 5 (height * 2)).toNat).map
        (fun p => monoBarRow (String.mk [sym]) (bar_width width) (barMaxVal (barRows data)) p.1 p.2)
    ∧ (monoChartLines "bar" data Option.none Option.none Option.none width height
        (String.mk [sym])).length ≤ (max 5 (height * 2)).toNat
    ∧ (∀ p ∈ barRows data,
        countChar sym (monoBarRow (String.mk [sym]) (bar_width width)
            (barMaxVal (barRows data)) p.1 p.2) =
          if 0 < barMaxVal (barRows data)
          then (max 1 (pyInt (p.2 / barMaxVal (barRows data) * ⟨bar_width width, 1⟩))).toNat
          else 1) := by
  have hmain : monoChartLines "bar" data Option.none Option.none Option.none width height
      (String.mk [sym]) =
      ((barRows data).take (max 5 (height * 2)).toNat).map
        (fun p => monoBarRow (String.mk [sym]) (bar_width width) (barMaxVal (barRows data)) p.1 p.2) := by
    simp [monoChartLines, strTruthy]
  refine ⟨hmain, ?_, ?_⟩
  · rw [hmain]
    simp [List.length_take]
  · intro p hp
    rw [countChar_monoBarRow sym (bar_width width) (barMaxVal (barRows data)) p.2 p.1
      (hlab p hp) (hfmt p hp) hs.1 hs.2]
    unfold barGlyphCount barSize
    by_cases h : 0 < barMaxVal (barRows data)
    · simp [h]
    · simp [h]

/-- Observable metadata of a single-chart render result: its
`render_mode` and `engine` (nothing on a raised validation error). -/
def chartMeta : Except String RenderResult → Option (String × String)
  | .ok r => some (r.render_mode, r.engine)
  | .error _ => Option.none

/-- An environment with neither `NO_COLOR` nor `TERM` set. -/
def envPlain : Env := ⟨Option.none, Option.none⟩

/-- A minimal valid single-series data list. -/
def dataOne : List Series := [⟨Option.none, [], [.int 1]⟩]

/-- With `force_mono` set, color is always off. -/
theorem should_use_color_force_mono (env : Env) (uc : Bool) :
    should_use_color env uc true = false := rfl

/-- C1 counterexample: a valid request with `force_mono=true`,
`text_mode="auto"` and a succeeding plot adapter returns engine
`"plotext-stripped"`, not `"fallback"` (the mode is still `"mono"`). -/
theorem C1_counterexample :
    chartMeta (render_terminal_chart (.ok "plot") envPlain "line" dataOne
      Option.none Option.none Option.none 100 28 .none true true "auto") =
      some ("mono", "plotext-stripped") := by rfl

/-- C1 (amended): every request with `force_mono=true` that does not
raise a validation error returns `render_mode = "mono"` regardless of
`use_color`; its engine is `"plotext-stripped"` when the adapter was
tried (text mode not `"fallback"`) and succeeded, and `"fallback"`
otherwise — never `"plotext"`. -/
theorem C1_force_mono_mode (adapter : AdapterOutcome) (env : Env) (chart_type : String)
    (data : List Series) (title x_label y_label : Option String) (width height : Int)
    (theme : ThemeInput) (use_color : Bool) (text_mode : String)
    (hct : chart_type ∈ VALID_KINDS) (hd : data.isEmpty = false)
    (htm : text_mode ∈ VALID_TEXT_MODES) :
    chartMeta (render_terminal_chart adapter env chart_type data title x_label y_label
        width height theme use_color true text_mode) =
      some ("mono",
        match adapter with
        | .ok _ => if text_mode = "fallback" then "fallback" else "plotext-stripped"
        | .err _ => "fallback") := by
  unfold render_terminal_chart
  rw [if_neg (not_not_intro hct), if_neg (by simp [hd]), if_neg (not_not_intro htm)]
  by_cases hf : text_mode = "fallback"
  · rw [if_neg (not_not_intro hf)]
    cases adapter <;> simp [chartMeta, hf]
  · rw [if_pos hf]
    cases adapter with
    | ok t =>
        by_cases hps : text_mode = "plotext_stripped"
        · simp [chartMeta, hps]
        · simp [chartMeta, hps, hf, should_use_color]
    | err msg => simp [chartMeta, hf]

/-- C1 witness: the amended statement at a concrete failing-adapter
request. -/
theorem C1_force_mono_mode_witness :
    chartMeta (render_terminal_chart (.err "boom") envPlain "line" dataOne
        Option.none Option.none Option.none 100 28 .none true true "auto") =
      some ("mono",
        match (AdapterOutcome.err "boom") with
        | .ok _ => if "auto" = "fallback" then "fallback" else "plotext-stripped"
        | .err _ => "fallback") :=
  C1_force_mono_mode (.err "boom") envPlain "line" dataOne Option.none Option.none
    Option.none 100 28 .none true "auto" (by decide) rfl (by decide)

/-- C2 witness: the amended statement at the concrete two-bar input. -/
theorem C2_bar_rows_witness :
    monoChartLines "bar" barDataAB Option.none Option.none Option.none 38 28 (String.mk ['#']) =
      ((barRows barDataAB).take (max 5 ((28 : Int) * 2)).toNat).map
        (fun p => monoBarRow (String.mk ['#']) (bar_width 38) (barMaxVal (barRows barDataAB)) p.1 p.2)
    ∧ (monoChartLines "bar" barDataAB Option.none Option.none Option.none 38 28
        (String.mk ['#'])).length ≤ (max 5 ((28 : Int) * 2)).toNat
    ∧ (∀ p ∈ barRows barDataAB,
        countChar '#' (monoBarRow (String.mk ['#']) (bar_width 38)
            (barMaxVal (barRows barDataAB)) p.1 p.2) =
          if 0 < barMaxVal (barRows barDataAB)
          then (max 1 (pyInt (p.2 / barMaxVal (barRows barDataAB) * ⟨bar_width 38, 1⟩))).toNat
          else 1) :=
  C2_bar_rows barDataAB 38 28 '#' (by decide) (by decide) (by decide)

/-- The `fallback_reason` field of a successful single-chart result
(nothing on a raised validation error). -/
def chartReason : Except String RenderResult → Option (Option String)
  | .ok r => some r.fallback_reason
  | .error _ => Option.none

/-- C4 counterexample: an adapter exception whose message is the empty
string is recovered from (mode `"mono"`, engine `"fallback"`), but the
result carries no `fallback_reason` field at all — not one equal to the
message. -/
theorem C4_counterexample :
    chartReason (render_terminal_chart (.err "") envPlain "line" dataOne
        Option.none Option.none Option.none 100 28 .none true false "auto") =
      some Option.none
    ∧ chartMeta (render_terminal_chart (.err "") envPlain "line" dataOne
        Option.none Option.none Option.none 100 28 .none true false "auto") =
      some ("mono", "fallback") :=
  ⟨rfl, rfl⟩

/-- C4 (amended): for every valid request with text mode `"auto"` or
`"plotext_stripped"`, an adapter exception is never propagated: the
result is successful with mode `"mono"`, engine `"fallback"`, the body
produced by the monochrome renderer, and `fallback_reason` equal to the
exception's message when that message is non-empty, and absent when the
message is empty. -/
theorem C4_adapter_error_recovery (env : Env) (chart_type : String) (data : List Series)
    (title x_label y_label : Option String) (width height : Int) (theme : ThemeInput)
    (use_color force_mono : Bool) (text_mode : String) (msg : String)
    (hct : chart_type ∈ VALID_KINDS) (hd : data.isEmpty = false)
    (htm : text_mode = "auto" ∨ text_mode = "plotext_stripped") :
    render_terminal_chart (.err msg) env chart_type data title x_label y_label width height
        theme use_color force_mono text_mode =
      .ok { success := true, render_mode := "mono", engine := "fallback",
            theme := (resolve_cli_theme theme).name,
            chart := render_mono_chart chart_type data title x_label y_label width height
              (resolve_cli_theme theme).mono_symbol,
            fallback_reason := if msg.isEmpty then Option.none else some msg } := by
  rcases htm with h | h <;> subst h <;>
    (unfold render_terminal_chart
     rw [if_neg (not_not_intro hct), if_neg (by simp [hd]), if_neg (by decide)]
     rfl)

/-- C4 witness: the amended statement at a concrete request with message
"boom". -/
theorem C4_adapter_error_recovery_witness :
    render_terminal_chart (.err "boom") envPlain "line" dataOne Option.none Option.none
        Option.none 100 28 .none true false "auto" =
      .ok { success := true, render_mode := "mono", engine := "fallback",
            theme := (resolve_cli_theme .none).name,
            chart := render_mono_chart "line" dataOne Option.none Option.none Option.none
              100 28 (resolve_cli_theme .none).mono_symbol,
            fallback_reason := if "boom".isEmpty then Option.none else some "boom" } :=
  C4_adapter_error_recovery envPlain "line" dataOne Option.none Option.none Option.none
    100 28 .none true false "auto" "boom" (by decide) rfl (Or.inl rfl)

/-- C6: for every valid request with `text_mode="fallback"` the result is
fully determined without the adapter (the adapter argument does not occur
on the right-hand side, so the plot adapter is never consulted): mode
`"mono"`, engine `"fallback"`, the monochrome body, and no
`fallback_reason`, independent of `use_color`, `force_mono` and the
environment. -/
theorem C6_fallback_skips_adapter (adapter : AdapterOutcome) (env : Env)
    (chart_type : String) (data : List Series) (title x_label y_label : Option String)
    (width height : Int) (theme : ThemeInput) (use_color force_mono : Bool)
    (hct : chart_type ∈ VALID_KINDS) (hd : data.isEmpty = false) :
    render_terminal_chart adapter env chart_type data title x_label y_label width height
        theme use_color force_mono "fallback" =
      .ok { success := true, render_mode := "mono", engine := "fallback",
            theme := (resolve_cli_theme theme).name,
            chart := render_mono_chart chart_type data title x_label y_label width height
              (resolve_cli_theme theme).mono_symbol,
            fallback_reason := Option.none } := by
  unfold render_terminal_chart
  rw [if_neg (not_not_intro hct), if_neg (by simp [hd]),
    if_neg (not_not_intro (by decide : "fallback" ∈ VALID_TEXT_MODES))]
  rfl

/-- C6 witness: the statement at a concrete request whose adapter would
have succeeded with ANSI color enabled. -/
theorem C6_fallback_skips_adapter_witness :
    render_terminal_chart (.ok "zap") envPlain "line" dataOne Option.none Option.none
        Option.none 100 28 .none true false "fallback" =
      .ok { success := true, render_mode := "mono", engine := "fallback",
            theme := (resolve_cli_theme .none).name,
            chart := render_mono_chart "line" dataOne Option.none Option.none Option.none
              100 28 (resolve_cli_theme .none).mono_symbol,
            fallback_reason := Option.none } :=
  C6_fallback_skips_adapter (.ok "zap") envPlain "line" dataOne Option.none Option.none
    Option.none 100 28 .none true false (by decide) rfl

/-- A single-chart render raises exactly on the three validation
failures: bad chart kind, empty data, or bad text mode; adapter behavior
and everything else never cause an error. -/
theorem render_chart_error_iff (adapter : AdapterOutcome) (env : Env) (chart_type : String)
    (data : List Series) (title x_label y_label : Option String) (width height : Int)
    (theme : ThemeInput) (use_color force_mono : Bool) (text_mode : String) :
    isError (render_terminal_chart adapter env chart_type data title x_label y_label
        width height theme use_color force_mono text_mode) = true ↔
      (chart_type ∉ VALID_KINDS ∨ data.isEmpty = true ∨ text_mode ∉ VALID_TEXT_MODES) := by
  unfold render_terminal_chart
  by_cases h1 : chart_type ∈ VALID_KINDS
  · rw [if_neg (not_not_intro h1)]
    by_cases h2 : data.isEmpty
    · rw [if_pos h2]
      simp [isError, h2]
    · rw [if_neg h2]
      by_cases h3 : text_mode ∈ VALID_TEXT_MODES
      · rw [if_neg (not_not_intro h3)]
        constructor
        · intro h
          exfalso
          by_cases hf : text_mode ≠ "fallback"
          · rw [if_pos hf] at h
            cases adapter with
            | ok t =>
                by_cases hps : text_mode = "plotext_stripped"
                · simp [hps, isError] at h
                · by_cases hc : should_use_color env use_color force_mono
                  · simp [hps, hc, isError] at h
                  · simp [hps, hc, isError] at h
            | err msg => simp [isError] at h
          · rw [if_neg hf] at h
            simp [isError] at h
        · intro h
          rcases h with h | h | h
          · exact absurd h1 h
          · exact absurd h (by simp [h2])
          · exact absurd h3 h
      · rw [if_pos h3]
        simp [isError, h3]
  · rw [if_pos h1]
    simp [isError, h1]

/-- Every successful single-chart result is one of the three
engine/mode pairs: `plotext`/`ansi`, `plotext-stripped`/`mono`, or
`fallback`/`mono`, and reports success. -/
theorem render_chart_engine_mode (adapter : AdapterOutcome) (env : Env) (chart_type : String)
    (data : List Series) (title x_label y_label : Option String) (width height : Int)
    (theme : ThemeInput) (use_color force_mono : Bool) (text_mode : String)
    (r : RenderResult)
    (hr : render_terminal_chart adapter env chart_type data title x_label y_label
        width height theme use_color force_mono text_mode = .ok r) :
    r.success = true ∧
      ((r.engine = "plotext" ∧ r.render_mode = "ansi") ∨
       (r.engine = "plotext-stripped" ∧ r.render_mode = "mono") ∨
       (r.engine = "fallback" ∧ r.render_mode = "mono")) := by
  simp only [render_terminal_chart] at hr
  split at hr
  · simp at hr
  · split at hr
    · simp at hr
    · split at hr
      · simp at hr
      · split at hr
        · split at hr
          · split at hr
            · simp only [Except.ok.injEq] at hr
              subst hr
              exact ⟨rfl, Or.inr (Or.inl ⟨rfl, rfl⟩)⟩
            · split at hr
              · simp only [Except.ok.injEq] at hr
                subst hr
                exact ⟨rfl, Or.inl ⟨rfl, rfl⟩⟩
              · simp only [Except.ok.injEq] at hr
                subst hr
                exact ⟨rfl, Or.inr (Or.inl ⟨rfl, rfl⟩)⟩
          · simp only [Except.ok.injEq] at hr
            subst hr
            exact ⟨rfl, Or.inr (Or.inr ⟨rfl, rfl⟩)⟩
        · simp only [Except.ok.injEq] at hr
          subst hr
          exact ⟨rfl, Or.inr (Or.inr ⟨rfl, rfl⟩)⟩

/-- The panel loop raises exactly when some panel fails single-chart
validation: resolved kind invalid, defaulted data empty, or the shared
text mode invalid. -/
theorem renderPanels_error_iff (adapter : Nat → AdapterOutcome) (env : Env)
    (width height : Int) (npanels : Nat) (theme : ThemeInput)
    (use_color force_mono : Bool) (text_mode : String) :
    ∀ (idx : Nat) (ps : List Panel),
      isError (renderPanels adapter env width height npanels theme use_color force_mono
          text_mode idx ps) = true ↔
        ∃ p ∈ ps, (panelChartType p ∉ VALID_KINDS ∨ (p.data.getD []).isEmpty = true ∨
          text_mode ∉ VALID_TEXT_MODES) := by
  intro idx ps
  induction ps generalizing idx with
  | nil => simp [renderPanels, isError]
  | cons p ps ih =>
      simp only [renderPanels]
      cases hp : renderPanel adapter env width height npanels theme use_color force_mono
          text_mode idx p with
      | error e =>
          have h1 : isError (renderPanel adapter env width height npanels theme use_color
              force_mono text_mode idx p) = true := by rw [hp]; rfl
          unfold renderPanel at h1
          rw [render_chart_error_iff] at h1
          simp only [isError]
          constructor
          · intro _; exact ⟨p, List.mem_cons_self p ps, h1⟩
          · intro _; trivial
      | ok r =>
          have h1 : isError (renderPanel adapter env width height npanels theme use_color
              force_mono text_mode idx p) = false := by rw [hp]; rfl
          unfold renderPanel at h1
          rw [Bool.eq_false_iff, ne_eq, render_chart_error_iff] at h1
          cases hrec : renderPanels adapter env width height npanels theme use_color force_mono
              text_mode (idx + 1) ps with
          | error e =>
              have h2 := (ih (idx + 1)).mp (by rw [hrec]; rfl)
              simp only [isError]
              constructor
              · intro _
                obtain ⟨q, hq, hbad⟩ := h2
                exact ⟨q, List.mem_cons_of_mem p hq, hbad⟩
              · intro _; trivial
          | ok rs =>
              have h2 : isError (renderPanels adapter env width height npanels theme use_color
                  force_mono text_mode (idx + 1) ps) = false := by rw [hrec]; rfl
              rw [Bool.eq_false_iff, ne_eq, ih (idx + 1)] at h2
              simp only [isError]
              constructor
              · intro h; cases h
              · intro hex
                obtain ⟨q, hq, hbad⟩ := hex
                rcases List.mem_cons.mp hq with heq | hmem
                · subst heq; exact absurd hbad h1
                · exact absurd ⟨q, hmem, hbad⟩ h2

/-- The dashboard raises exactly when the panel list is empty or some
panel fails the single-chart validations. -/
theorem render_dashboard_error_iff (adapter : Nat → AdapterOutcome) (env : Env)
    (panels : List Panel) (title : Option String) (width height : Int)
    (theme : ThemeInput) (use_color force_mono : Bool) (text_mode : String) :
    isError (render_terminal_dashboard adapter env panels title width height theme
        use_color force_mono text_mode) = true ↔
      (panels.isEmpty = true ∨ ∃ p ∈ panels, (panelChartType p ∉ VALID_KINDS ∨
        (p.data.getD []).isEmpty = true ∨ text_mode ∉ VALID_TEXT_MODES)) := by
  unfold render_terminal_dashboard
  by_cases he : panels.isEmpty
  · rw [if_pos he]
    simp [isError, he]
  · rw [if_neg he]
    cases hr : renderPanels adapter env width height panels.length theme use_color
        force_mono text_mode 0 panels with
    | error e =>
        have h1 := (renderPanels_error_iff adapter env width height panels.length theme
          use_color force_mono text_mode 0 panels).mp (by rw [hr]; rfl)
        simp only [isError]
        constructor
        · intro _; exact Or.inr h1
        · intro _; trivial
    | ok rs =>
        have h1 : isError (renderPanels adapter env width height panels.length theme
            use_color force_mono text_mode 0 panels) = false := by rw [hr]; rfl
        rw [Bool.eq_false_iff, ne_eq,
          renderPanels_error_iff adapter env width height panels.length theme
            use_color force_mono text_mode 0 panels] at h1
        simp only [isError]
        constructor
        · intro h; cases h
        · intro h
          rcases h with h | h
          · exact absurd h he
          · exact absurd h h1

/-- C3 counterexample: a dashboard whose panel list is non-empty still
raises a validation error when a panel's chart kind is invalid (here
`"pie"`), refuting "exactly when the panel list is empty". -/
theorem C3_counterexample :
    ([(⟨some (.str "pie"), some dataOne, Option.none, Option.none, Option.none⟩ : Panel)].isEmpty
        = false)
    ∧ isError (render_terminal_dashboard (fun _ => .ok "p") envPlain
        [⟨some (.str "pie"), some dataOne, Option.none, Option.none, Option.none⟩]
        Option.none 120 32 .none true false "auto") = true :=
  ⟨rfl, rfl⟩

/-- C3 (amended): `render_terminal_chart` raises exactly when the chart
kind is outside the four supported kinds, or the data is empty, or the
text mode is invalid; `render_terminal_dashboard` raises exactly when
the panel list is empty or some panel fails those same per-chart
validations (resolved kind invalid, defaulted data empty, or the shared
text mode invalid); in every other case each returns a successful
result. -/
theorem C3_validation_errors (adapter : AdapterOutcome) (dadapter : Nat → AdapterOutcome)
    (env : Env) (chart_type : String) (data : List Series) (panels : List Panel)
    (title x_label y_label : Option String) (width height : Int) (theme : ThemeInput)
    (use_color force_mono : Bool) (text_mode : String) :
    (isError (render_terminal_chart adapter env chart_type data title x_label y_label
        width height theme use_color force_mono text_mode) = true ↔
      (chart_type ∉ VALID_KINDS ∨ data.isEmpty = true ∨ text_mode ∉ VALID_TEXT_MODES))
    ∧ (∀ r, render_terminal_chart adapter env chart_type data title x_label y_label
        width height theme use_color force_mono text_mode = .ok r → r.success = true)
    ∧ (isError (render_terminal_dashboard dadapter env panels title width height theme
        use_color force_mono text_mode) = true ↔
      (panels.isEmpty = true ∨ ∃ p ∈ panels, (panelChartType p ∉ VALID_KINDS ∨
        (p.data.getD []).isEmpty = true ∨ text_mode ∉ VALID_TEXT_MODES)))
    ∧ (∀ d, render_terminal_dashboard dadapter env panels title width height theme
        use_color force_mono text_mode = .ok d → d.success = true) := by
  refine ⟨render_chart_error_iff adapter env chart_type data title x_label y_label
      width height theme use_color force_mono text_mode,
    fun r hr => (render_chart_engine_mode adapter env chart_type data title x_label y_label
      width height theme use_color force_mono text_mode r hr).1,
    render_dashboard_error_iff dadapter env panels title width height theme
      use_color force_mono text_mode, ?_⟩
  intro d hd
  unfold render_terminal_dashboard at hd
  split at hd
  · simp at hd
  · split at hd
    · simp at hd
    · simp only [Except.ok.injEq] at hd
      subst hd
      rfl

/-- Every result of a successful panel loop satisfies the single-chart
engine/mode invariant. -/
theorem renderPanels_ok_invariant (adapter : Nat → AdapterOutcome) (env : Env)
    (width height : Int) (npanels : Nat) (theme : ThemeInput)
    (use_color force_mono : Bool) (text_mode : String) :
    ∀ (idx : Nat) (ps : List Panel) (rs : List RenderResult),
      renderPanels adapter env width height npanels theme use_color force_mono
          text_mode idx ps = .ok rs →
      ∀ r ∈ rs,
        (r.engine = "plotext" ∧ r.render_mode = "ansi") ∨
        (r.engine = "plotext-stripped" ∧ r.render_mode = "mono") ∨
        (r.engine = "fallback" ∧ r.render_mode = "mono") := by
  intro idx ps
  induction ps generalizing idx with
  | nil =>
      intro rs h
      simp only [renderPanels, Except.ok.injEq] at h
      subst h
      intro r hr
      cases hr
  | cons p ps ih =>
      intro rs h
      simp only [renderPanels] at h
      cases hp : renderPanel adapter env width height npanels theme use_color force_mono
          text_mode idx p with
      | error e => rw [hp] at h; simp at h
      | ok r0 =>
          rw [hp] at h
          cases hrec : renderPanels adapter env width height npanels theme use_color
              force_mono text_mode (idx + 1) ps with
          | error e => rw [hrec] at h; simp at h
          | ok rs0 =>
              rw [hrec] at h
              simp only [Except.ok.injEq] at h
              subst h
              intro r hr
              rcases List.mem_cons.mp hr with heq | hmem
              · subst heq
                unfold renderPanel at hp
                exact (render_chart_engine_mode _ _ _ _ _ _ _ _ _ _ _ _ _ _ hp).2
              · exact ih (idx + 1) rs0 hrec r hmem

/-- Two boolean predicates that agree on every member yield the same
`any`. -/
theorem any_congr_mem {α : Type} {l : List α} {f g : α → Bool}
    (h : ∀ a ∈ l, f a = g a) : l.any f = l.any g := by
  induction l with
  | nil => rfl
  | cons a l ih =>
      simp only [List.any_cons, h a (List.mem_cons_self a l),
        ih (fun b hb => h b (List.mem_cons_of_mem a hb))]

/-- C5: a successful dashboard reports `render_mode = "mono"` exactly
when some panel's result used mono (else `"ansi"`), and reports as
engine the weakest tier across panels under the ranking
`plotext (0) < plotext-stripped (1) < fallback (2)`. -/
theorem C5_dashboard_aggregation (adapter : Nat → AdapterOutcome) (env : Env)
    (panels : List Panel) (title : Option String) (width height : Int)
    (theme : ThemeInput) (use_color force_mono : Bool) (text_mode : String)
    (rs : List RenderResult) (d : DashboardResult)
    (hp : renderPanels adapter env width height panels.length theme use_color force_mono
        text_mode 0 panels = .ok rs)
    (hd : render_terminal_dashboard adapter env panels title width height theme
        use_color force_mono text_mode = .ok d) :
    d.render_mode = (if rs.any (fun r => r.render_mode == "mono") then "mono" else "ansi")
    ∧ d.engine = engineOfRank (rs.foldl (fun a r => max a (engineRank r.engine)) 0) := by
  have hinv := renderPanels_ok_invariant adapter env width height panels.length theme
    use_color force_mono text_mode 0 panels rs hp
  unfold render_terminal_dashboard at hd
  split at hd
  · simp at hd
  · rw [hp] at hd
    simp only [Except.ok.injEq] at hd
    subst hd
    refine ⟨?_, rfl⟩
    have hany : (rs.any fun r => r.engine = "fallback" ∨ r.engine = "plotext-stripped")
        = rs.any (fun r => r.render_mode == "mono") := by
      refine any_congr_mem (fun r hr => ?_)
      rcases hinv r hr with ⟨h1, h2⟩ | ⟨h1, h2⟩ | ⟨h1, h2⟩ <;> simp [h1, h2]
    simp only [hany]

/-- A valid one-series line panel whose kind is given explicitly. -/
def panelA : Panel := ⟨some (.str "line"), some dataOne, Option.none, Option.none, Option.none⟩

/-- Adapter behavior for the dashboard example: the first panel's plot
succeeds, the second raises "x". -/
def adC5 : Nat → AdapterOutcome := fun i => if i = 0 then .ok "P" else .err "x"

/-- The monochrome body the dashboard example's second panel falls back
to. -/
def chartP2 : String :=
  render_mono_chart "line" dataOne (some "Panel 2") Option.none Option.none 120 16 "#"

/-- The two panel results of the dashboard example. -/
def resListC5 : List RenderResult :=
  [⟨true, "ansi", "plotext", "dark_corporate_cli", "P", Option.none⟩,
   ⟨true, "mono", "fallback", "dark_corporate_cli", chartP2, some "x"⟩]

/-- The aggregated result of the dashboard example. -/
def dashResultC5 : DashboardResult :=
  ⟨true, "mono", "fallback", "dark_corporate_cli", "P" ++ "\n\n" ++ chartP2, some "x"⟩

/-- C5 witness: the aggregation statement at a concrete two-panel
dashboard whose panels used `plotext` and `fallback`. -/
theorem C5_dashboard_aggregation_witness :
    dashResultC5.render_mode =
      (if resListC5.any (fun r => r.render_mode == "mono") then "mono" else "ansi")
    ∧ dashResultC5.engine =
        engineOfRank (resListC5.foldl (fun a r => max a (engineRank r.engine)) 0) :=
  C5_dashboard_aggregation adC5 envPlain [panelA, panelA] Option.none 120 32 .none true
    false "auto" resListC5 dashResultC5 (by rfl) (by rfl)

/-- C10: a dashboard panel spec that omits `"type"` is rendered with the
per-panel kind defaulting to `"line"` — no chart-kind validation error —
while a panel that omits `"data"` defaults to the empty list and
triggers the non-empty-data validation failure. -/
theorem C10_panel_defaults (adapter : Nat → AdapterOutcome) (env : Env) (p : Panel)
    (title : Option String) (width height : Int) (theme : ThemeInput)
    (use_color force_mono : Bool) (text_mode : String) :
    (p.type = Option.none → panelChartType p = "line")
    ∧ (p.type = Option.none → (p.data.getD []).isEmpty = false →
        text_mode ∈ VALID_TEXT_MODES →
        isError (render_terminal_dashboard adapter env [p] title width height theme
          use_color force_mono text_mode) = false)
    ∧ (p.type = Option.none → p.data = Option.none →
        render_terminal_dashboard adapter env [p] title width height theme
          use_color force_mono text_mode = .error "'data' must be a non-empty array") := by
  have hline : p.type = Option.none → panelChartType p = "line" := by
    intro h
    unfold panelChartType
    rw [h]
    rfl
  refine ⟨hline, ?_, ?_⟩
  · intro h1 h2 h3
    rw [Bool.eq_false_iff, ne_eq, render_dashboard_error_iff]
    intro hcon
    rcases hcon with hc | ⟨q, hq, hbad⟩
    · simp at hc
    · have hqp : q = p := by simpa using hq
      subst hqp
      rcases hbad with hb | hb | hb
      · exact hb (by rw [hline h1]; decide)
      · rw [h2] at hb; cases hb
      · exact hb h3
  · intro h1 h2
    unfold render_terminal_dashboard
    rw [if_neg (by simp)]
    have hpanels : renderPanels adapter env width height [p].length theme use_color
        force_mono text_mode 0 [p] = .error "'data' must be a non-empty array" := by
      unfold renderPanels renderPanel
      rw [hline h1, h2]
      unfold render_terminal_chart
      rw [if_neg (by decide)]
      rfl
    rw [hpanels]
